import Mathlib

/-!
Verification development for the portfolio CMS backend (FastAPI + document
store).  The Python source (src/main.py, src/schemas.py) is shallowly
embedded: JSON-ish values become an inductive `Val`, documents become
association lists, the document store becomes a record of collections, and
each endpoint becomes a Lean function from its inputs and the pre-state to
a result and the post-state.  Machine-generated inputs (fresh ids, fresh
tokens, the current time) are passed as explicit arguments.
-/

namespace CMS

/-- JSON-ish scalar values stored in documents.  Dates are modelled as
integer timestamps (`vInt`), which preserves the ordering comparisons the
source performs on them. -/
inductive Val where
  | vStr : String → Val
  | vInt : Int → Val
  | vBool : Bool → Val
  | vNull : Val
  deriving DecidableEq, Repr

/-- A document is an association list of field name to value, the shallow
embedding of a Python dict (keys are unique in every document the code
builds, and all operations below agree with dict semantics on such lists). -/
abbrev Doc : Type := List (String × Val)

/-- Field lookup, the embedding of `d.get(k)` returning the first binding. -/
def Doc.get? : Doc → String → Option Val
  | [], _ => none
  | (k, v) :: rest, key => if k = key then some v else Doc.get? rest key

/-- The embedding of `d.get(k)` with Python's `None` default. -/
def Doc.getd (d : Doc) (k : String) : Val :=
  (d.get? k).getD Val.vNull

/-- The embedding of `d.pop(k, None)` / `del d[k]` on a dict: drop the
binding for `k`. -/
def Doc.erase : Doc → String → Doc
  | [], _ => []
  | kv :: rest, k => if kv.1 = k then Doc.erase rest k else kv :: Doc.erase rest k

/-- The embedding of Python `k in d`. -/
def Doc.hasKey (d : Doc) (k : String) : Bool :=
  (d.get? k).isSome

/-- Python truthiness of a value (used by `if sess.get(...)`,
`bool(payload[...])`, `user.get("is_admin") and ...`). -/
def valTruthy : Option Val → Bool
  | none => false
  | some Val.vNull => false
  | some (Val.vBool b) => b
  | some (Val.vInt n) => decide (n ≠ 0)
  | some (Val.vStr s) => decide (s ≠ "")

/-- Python `str(v)` on a stored value. -/
def valToString : Val → String
  | Val.vStr s => s
  | Val.vInt n => toString n
  | Val.vBool b => if b then "True" else "False"
  | Val.vNull => "None"

/-- `serialize` from src/main.py lines 50-56: copy the document and rename
its internal `_id` to a public string `id`. -/
def serialize (d : Doc) : Doc :=
  match d.get? "_id" with
  | some v => Doc.erase d "_id" ++ [("id", Val.vStr (valToString v))]
  | none => d

/-- The collections the code addresses by name. -/
inductive Coll where
  | user | session | category | client | project | testimonial | setting
  deriving DecidableEq, Repr

/-- The document store: one list of documents per collection name. -/
structure Store where
  user : List Doc
  session : List Doc
  category : List Doc
  client : List Doc
  project : List Doc
  testimonial : List Doc
  setting : List Doc
  deriving DecidableEq, Repr

def Store.coll (s : Store) : Coll → List Doc
  | Coll.user => s.user
  | Coll.session => s.session
  | Coll.category => s.category
  | Coll.client => s.client
  | Coll.project => s.project
  | Coll.testimonial => s.testimonial
  | Coll.setting => s.setting

def Store.setColl (s : Store) : Coll → List Doc → Store
  | Coll.user, l => { s with user := l }
  | Coll.session, l => { s with session := l }
  | Coll.category, l => { s with category := l }
  | Coll.client, l => { s with client := l }
  | Coll.project, l => { s with project := l }
  | Coll.testimonial, l => { s with testimonial := l }
  | Coll.setting, l => { s with setting := l }

/-- A document matches a filter when every filter field is present with an
equal value (Mongo-style equality filter). -/
def docMatches (filt : Doc) (d : Doc) : Bool :=
  List.all filt (fun kv => decide (d.get? kv.1 = some kv.2))

/-- Modelled from the spec: `get_documents` of database.py (the Document
Store Adapter is imported by src/main.py but its file is not in src/);
spec section 2 describes it as a generic read with an equality filter
against a named collection.  The `limit=1` the callers pass is embedded as
`List.take 1` at each call site. -/
def get_documents (s : Store) (c : Coll) (filt : Doc) : List Doc :=
  List.filter (docMatches filt) (s.coll c)

/-- Modelled from the spec: `create_document` of database.py; spec section
2 describes it as a generic create returning the new opaque identifier.
The freshly generated id is an explicit argument. -/
def create_document (s : Store) (c : Coll) (d : Doc) (newId : String) : Store × String :=
  (s.setColl c (s.coll c ++ [d ++ [("_id", Val.vStr newId)]]), newId)

/-- Overwrite or append one field of a document (dict assignment). -/
def Doc.setField (d : Doc) (k : String) (v : Val) : Doc :=
  if d.hasKey k then
    List.map (fun kv => if kv.1 = k then (k, v) else kv) d
  else
    d ++ [(k, v)]

/-- Merge a partial update into a document, field by field. -/
def Doc.merge (d upd : Doc) : Doc :=
  List.foldl (fun acc kv => Doc.setField acc kv.1 kv.2) d upd

/-- Modelled from the spec: `update_document` of database.py; spec
sections 2 and 4.2 describe it as a partial update of the document with
the given id, reporting failure both when no row matched and when the
update changed nothing (the two are not distinguishable). -/
def update_document (s : Store) (c : Coll) (docId : String) (upd : Doc) : Store × Bool :=
  match List.find? (fun d => decide (Doc.get? d "_id" = some (Val.vStr docId))) (s.coll c) with
  | none => (s, false)
  | some d =>
    let d2 := Doc.merge d upd
    if d2 = d then (s, false)
    else
      (s.setColl c (List.map
        (fun x => if Doc.get? x "_id" = some (Val.vStr docId) then d2 else x) (s.coll c)), true)

/-- Modelled from the spec: `delete_document` of database.py; spec
sections 2 and 4.2 describe it as deletion by id, reporting whether a row
was removed. -/
def delete_document (s : Store) (c : Coll) (docId : String) : Store × Bool :=
  let coll := s.coll c
  let remaining := List.filter (fun d => decide (Doc.get? d "_id" ≠ some (Val.vStr docId))) coll
  (s.setColl c remaining, decide (remaining.length ≠ coll.length))

/-- An HTTPException: status code and detail string. -/
structure HttpErr where
  status : Nat
  detail : String
  deriving DecidableEq, Repr

/-- Modelled from the spec: passlib's `pbkdf2_sha256.hash` (an external
library).  Spec section 4.1 only requires a salted one-way hash; the
claims never depend on its internals, so a simple executable stand-in
tagging the password is used. -/
def pbkdf2_sha256_hash (password : String) : String :=
  String.append "pbkdf2-sha256$" password

/-- Modelled from the spec: passlib's `pbkdf2_sha256.verify`, true exactly
when the hash was produced from the password. -/
def pbkdf2_sha256_verify (password stored : String) : Bool :=
  decide (pbkdf2_sha256_hash password = stored)

/-- `_get_token_from_request` of src/main.py lines 68-75: the bearer token
of the Authorization header, if any.  A request is embedded by this
optional token (the only request data the auth helpers read). -/
def getTokenFromRequest (authHeader : Option String) : Option String :=
  match authHeader with
  | none => none
  | some auth =>
    let parts := auth.splitOn " " |>.filter (fun p => p ≠ "")
    match parts with
    | [scheme, tok] => if scheme.toLower = "bearer" then some tok else none
    | _ => none

/-- Body of the `try` block of the expiry check in `get_current_user`
(src/main.py lines 87-89): when the session's `expires_at` is truthy it is
parsed back from its string form and compared with the current time; a
strictly past expiry raises the 401 Session-expired HTTPException, and a
value that does not parse as a timestamp raises a ValueError (embedded as
a 0-status error). -/
def expiryCheck (sess : Doc) (now : Int) : Except HttpErr Unit :=
  if valTruthy (sess.get? "expires_at") then
    match sess.get? "expires_at" with
    | some (Val.vInt t) => if t < now then Except.error ⟨401, "Session expired"⟩ else Except.ok ()
    | _ => Except.error ⟨0, "ValueError"⟩
  else
    Except.ok ()

/-- The user lookup of `get_current_user` (src/main.py lines 93-96):
primary lookup through the raw session's `user_id`, then the fallback
through the serialized session's `user_id`. -/
def lookupSessionUser (s : Store) (sess0 : Doc) : List Doc :=
  let sess := serialize sess0
  let userDocs :=
    if sess0.hasKey "user_id" then
      (get_documents s Coll.user [("_id", sess0.getd "user_id")]).take 1
    else []
  if userDocs.isEmpty then
    (get_documents s Coll.user [("_id", sess.getd "user_id")]).take 1
  else userDocs

/-- `get_current_user` of src/main.py lines 78-101.  The `request` is
embedded as the optional bearer token; `now` is the wall clock read by
`datetime.utcnow()`. -/
def get_current_user (s : Store) (token? : Option String) (now : Int) : Except HttpErr Doc :=
  match token? with
  | none => Except.error ⟨401, "Missing token"⟩
  | some token =>
    if token = "" then Except.error ⟨401, "Missing token"⟩
    else
      match (get_documents s Coll.session [("token", Val.vStr token)]).take 1 with
      | [] => Except.error ⟨401, "Invalid token"⟩
      | sess0 :: _ =>
        -- The expiry check sits in a `try` whose handler is
        -- `except Exception: pass`: every exception it raises, the 401
        -- Session-expired HTTPException included, is swallowed and the
        -- result discarded, so control always continues below.
        let _ := expiryCheck (serialize sess0) now
        match lookupSessionUser s sess0 with
        | [] => Except.error ⟨401, "User not found"⟩
        | u :: _ =>
          Except.ok ((serialize u).erase "password_hash")

/-- `get_current_admin` of src/main.py lines 104-108. -/
def get_current_admin (s : Store) (token? : Option String) (now : Int) : Except HttpErr Doc :=
  match get_current_user s token? now with
  | Except.error e => Except.error e
  | Except.ok user =>
    if valTruthy (user.get? "is_admin") && valTruthy (user.get? "is_verified") then
      Except.ok user
    else
      Except.error ⟨403, "Admin access required"⟩

/-- `SignupIn` of src/main.py lines 156-159. -/
structure SignupIn where
  name : String
  email : String
  password : String
  deriving DecidableEq, Repr

/-- `LoginIn` of src/main.py lines 161-163. -/
structure LoginIn where
  email : String
  password : String
  deriving DecidableEq, Repr

/-- `UserOut` of src/main.py lines 165-171. -/
structure UserOut where
  id : String
  name : String
  email : String
  is_admin : Bool
  is_verified : Bool
  created_at : Int
  deriving DecidableEq, Repr

/-- `signup` of src/main.py lines 173-189.  Endpoints return the response
(or the raised HTTPException) together with the post-state of the store;
an error leaves the store exactly as it was, since the raise precedes any
write. -/
def signup (s : Store) (u : SignupIn) (now : Int) (newId : String) :
    Except HttpErr UserOut × Store :=
  let existing := (get_documents s Coll.user [("email", Val.vStr u.email)]).take 1
  if existing.isEmpty = false then
    (Except.error ⟨400, "Email already registered"⟩, s)
  else
    let hashed := pbkdf2_sha256_hash u.password
    let doc : Doc :=
      [("name", Val.vStr u.name), ("email", Val.vStr u.email),
       ("password_hash", Val.vStr hashed), ("is_admin", Val.vBool false),
       ("is_verified", Val.vBool false), ("created_at", Val.vInt now)]
    let (s2, id) := create_document s Coll.user doc newId
    (Except.ok ⟨id, u.name, u.email, false, false, now⟩, s2)

/-- The response of a successful login: token plus sanitized user. -/
structure LoginOut where
  token : String
  user : Doc
  deriving DecidableEq, Repr

/-- `user.get("password_hash", "")` as read by `login`: default to the
empty string when absent; stored hashes are strings, a non-string value
is read as its string form. -/
def storedPasswordHash (user : Doc) : String :=
  match user.get? "password_hash" with
  | some (Val.vStr h) => h
  | some v => valToString v
  | none => ""

/-- `login` of src/main.py lines 191-213.  The fresh uuid token and the
fresh session id are explicit arguments. -/
def login (s : Store) (p : LoginIn) (now : Int) (newToken newSessId : String) :
    Except HttpErr LoginOut × Store :=
  match (get_documents s Coll.user [("email", Val.vStr p.email)]).take 1 with
  | [] => (Except.error ⟨401, "Invalid email or password"⟩, s)
  | user :: _ =>
    if pbkdf2_sha256_verify p.password (storedPasswordHash user) = false then
      (Except.error ⟨401, "Invalid email or password"⟩, s)
    else
      let sessionDoc : Doc :=
        [("token", Val.vStr newToken), ("user_id", user.getd "_id"),
         ("is_admin", Val.vBool (valTruthy (user.get? "is_admin"))),
         ("is_verified", Val.vBool (valTruthy (user.get? "is_verified"))),
         ("created_at", Val.vInt now), ("expires_at", Val.vInt (now + 7 * 86400))]
      let (s2, _) := create_document s Coll.session sessionDoc newSessId
      let safeUser := (serialize user).erase "password_hash"
      (Except.ok ⟨newToken, safeUser⟩, s2)

/-- `me` of src/main.py lines 215-217: returns the resolved caller. -/
def me (s : Store) (token? : Option String) (now : Int) : Except HttpErr Doc :=
  get_current_user s token? now

/-- `list_users` of src/main.py lines 219-224: admin-gated listing of all
users with password hashes stripped. -/
def list_users (s : Store) (token? : Option String) (now : Int) :
    Except HttpErr (List Doc) :=
  match get_current_admin s token? now with
  | Except.error e => Except.error e
  | Except.ok _ =>
    let docs := List.map serialize (get_documents s Coll.user [])
    Except.ok (List.map (fun d => d.erase "password_hash") docs)

/-- The `allowed` map built by `set_admin` (src/main.py lines 228-232):
the two recognised payload keys coerced by `bool(...)`, every other key
dropped. -/
def allowedFields (payload : Doc) : Doc :=
  (if payload.hasKey "is_admin" then
     [("is_admin", Val.vBool (valTruthy (payload.get? "is_admin")))]
   else []) ++
  (if payload.hasKey "is_verified" then
     [("is_verified", Val.vBool (valTruthy (payload.get? "is_verified")))]
   else [])

/-- `set_admin` of src/main.py lines 226-238 (PATCH
/api/users/(id)/verify-admin). -/
def set_admin (s : Store) (docId : String) (payload : Doc)
    (token? : Option String) (now : Int) : Except HttpErr Doc × Store :=
  match get_current_admin s token? now with
  | Except.error e => (Except.error e, s)
  | Except.ok _ =>
    let allowed := allowedFields payload
    if allowed.isEmpty then
      (Except.error ⟨400, "No fields to update"⟩, s)
    else
      match update_document s Coll.user docId allowed with
      | (s2, true) => (Except.ok [("ok", Val.vBool true)], s2)
      | (_, false) => (Except.error ⟨404, "User not found or not modified"⟩, s)

/-- The company part of the testimonial listing filter: an equality
constraint on `company` when a truthy `client_name` query parameter is
present, nothing otherwise. -/
def companyFilt : Option String → Doc
  | some c => if c = "" then [] else [("company", Val.vStr c)]
  | none => []

/-- `list_testimonials` of src/main.py lines 303-321 (GET
/api/testimonials).  `clientName` is the optional query parameter, the
request is embedded as the optional bearer token (in the running app the
`request` argument is always a real Request object).  A falsy
`client_name` (absent or empty) adds no company filter, matching
`if client_name:`. -/
def list_testimonials (s : Store) (clientName : Option String)
    (includeAll : Bool) (token? : Option String) (now : Int) : List Doc :=
  let filt : Doc := [("status", Val.vStr "approved")] ++ companyFilt clientName
  let filt :=
    if includeAll then
      -- try: resolve an admin and drop the status filter; on any failure
      -- (missing or invalid token, non-admin) the except swallows the
      -- HTTPException and the filter silently remains.
      match get_current_admin s token? now with
      | Except.ok user => if user.isEmpty then filt else filt.erase "status"
      | Except.error _ => filt
    else filt
  List.map serialize (get_documents s Coll.testimonial filt)

/-- `PublicTestimonialIn` of src/main.py lines 140-145, post-validation. -/
structure PublicTestimonialIn where
  name : String
  role : Option String
  company : Option String
  rating : Option Int
  quote : String
  deriving DecidableEq, Repr

/-- Decimal digits to a number, failing on the empty list or any
non-digit character. -/
def digitsToNat? (l : List Char) : Option Nat :=
  match l with
  | [] => none
  | _ :: _ =>
    List.foldl
      (fun acc c =>
        match acc with
        | none => none
        | some n => if c.isDigit then some (n * 10 + (c.toNat - 48)) else none)
      (some 0) l

/-- The integers a decimal string spells, an executable rendering of the
string-to-int coercion pydantic applies in lax mode. -/
def strToInt? (s : String) : Option Int :=
  match s.data with
  | [] => none
  | c :: rest =>
    if c = '-' then (digitsToNat? rest).map (fun n => -(n : Int))
    else (digitsToNat? s.data).map (fun n => (n : Int))

/-- Pydantic (lax mode) reading of an `Optional[int]` field: absent or
null becomes `None`; an integer passes; a string passes only when it
spells an integer; anything else fails validation (FastAPI then answers
422 before the handler runs). -/
def validateOptInt : Option Val → Except String (Option Int)
  | none => Except.ok none
  | some Val.vNull => Except.ok none
  | some (Val.vInt n) => Except.ok (some n)
  | some (Val.vStr str) =>
    match strToInt? str with
    | some n => Except.ok (some n)
    | none => Except.error "value is not a valid integer"
  | some (Val.vBool _) => Except.error "value is not a valid integer"

/-- Pydantic reading of an `Optional[str]` field. -/
def validateOptStr : Option Val → Except String (Option String)
  | none => Except.ok none
  | some Val.vNull => Except.ok none
  | some (Val.vStr str) => Except.ok (some str)
  | some _ => Except.error "value is not a valid string"

/-- Pydantic reading of a required `str` field. -/
def validateStr : Option Val → Except String String
  | some (Val.vStr str) => Except.ok str
  | some _ => Except.error "value is not a valid string"
  | none => Except.error "field required"

/-- Validation of a raw JSON body against `PublicTestimonialIn`
(src/main.py lines 140-145): `name` and `quote` are required strings,
`role` and `company` optional strings, `rating` an `Optional[int]`.
FastAPI runs this before `submit_testimonial` is entered. -/
def validatePublicTestimonialIn (payload : Doc) :
    Except String PublicTestimonialIn :=
  match validateStr (payload.get? "name") with
  | Except.error e => Except.error e
  | Except.ok nm =>
    match validateOptStr (payload.get? "role") with
    | Except.error e => Except.error e
    | Except.ok role =>
      match validateOptStr (payload.get? "company") with
      | Except.error e => Except.error e
      | Except.ok company =>
        match validateOptInt (payload.get? "rating") with
        | Except.error e => Except.error e
        | Except.ok rating =>
          match validateStr (payload.get? "quote") with
          | Except.error e => Except.error e
          | Except.ok quote =>
            Except.ok ⟨nm, role, company, rating, quote⟩

/-- The rating the handler stores (src/main.py lines 326-330): default 5
when absent, then clamped into [0,5].  After validation the value is an
actual integer, so the `int(rating)` conversion cannot raise and the
`except` fallback to 5 is dead. -/
def clampRating (rating : Option Int) : Int :=
  max 0 (min 5 (rating.getD 5))

def optStrVal : Option String → Val
  | some str => Val.vStr str
  | none => Val.vNull

/-- `submit_testimonial` of src/main.py lines 323-341 (POST
/api/testimonials/submit), composed with the framework validation of its
`PublicTestimonialIn` body: a payload that fails validation is answered
422 and never reaches the handler. -/
def submit_testimonial (s : Store) (payload : Doc) (now : Int) (newId : String) :
    Except HttpErr Doc × Store :=
  match validatePublicTestimonialIn payload with
  | Except.error e => (Except.error ⟨422, e⟩, s)
  | Except.ok p =>
    let rating := clampRating p.rating
    let doc : Doc :=
      [("name", Val.vStr p.name), ("role", optStrVal p.role),
       ("company", optStrVal p.company), ("rating", Val.vInt rating),
       ("quote", Val.vStr p.quote), ("status", Val.vStr "pending"),
       ("created_at", Val.vInt now)]
    let (s2, id) := create_document s Coll.testimonial doc newId
    (Except.ok [("id", Val.vStr id), ("status", Val.vStr "pending")], s2)

/-- `get_settings` of src/main.py lines 343-346 (GET /api/settings): the
matching setting document, or the bare fallback object when none exists.
The endpoint reads only; the returned store is the unchanged input. -/
def get_settings (s : Store) (key : String) : Doc × Store :=
  match (get_documents s Coll.setting [("key", Val.vStr key)]).take 1 with
  | d :: _ => (serialize d, s)
  | [] => ([("key", Val.vStr key)], s)

/-- `CategoryIn` of src/main.py lines 112-115. -/
structure CategoryIn where
  key : String
  title : String
  description : Option String
  deriving DecidableEq, Repr

/-- `payload.model_dump()` for `CategoryIn`. -/
def CategoryIn.dump (p : CategoryIn) : Doc :=
  [("key", Val.vStr p.key), ("title", Val.vStr p.title),
   ("description", optStrVal p.description)]

/-- `create_category` of src/main.py lines 350-353 (POST /api/categories,
admin-gated). -/
def create_category (s : Store) (payload : CategoryIn)
    (token? : Option String) (now : Int) (newId : String) :
    Except HttpErr Doc × Store :=
  match get_current_admin s token? now with
  | Except.error e => (Except.error e, s)
  | Except.ok _ =>
    let (s2, id) := create_document s Coll.category payload.dump newId
    (Except.ok [("id", Val.vStr id)], s2)

/-- `update_category` of src/main.py lines 378-382 (PATCH
/api/categories/(id), admin-gated, arbitrary field map). -/
def update_category (s : Store) (docId : String) (payload : Doc)
    (token? : Option String) (now : Int) : Except HttpErr Doc × Store :=
  match get_current_admin s token? now with
  | Except.error e => (Except.error e, s)
  | Except.ok _ =>
    match update_document s Coll.category docId payload with
    | (s2, true) => (Except.ok [("ok", Val.vBool true)], s2)
    | (_, false) => (Except.error ⟨404, "Category not found or not modified"⟩, s)

/-- `delete_category` of src/main.py lines 408-412 (DELETE
/api/categories/(id), admin-gated). -/
def delete_category (s : Store) (docId : String)
    (token? : Option String) (now : Int) : Except HttpErr Doc × Store :=
  match get_current_admin s token? now with
  | Except.error e => (Except.error e, s)
  | Except.ok _ =>
    match delete_document s Coll.category docId with
    | (s2, true) => (Except.ok [("ok", Val.vBool true)], s2)
    | (_, false) => (Except.error ⟨404, "Category not found"⟩, s)

/-! Concrete fixtures, used to instantiate the theorems below on closed
inputs: an admin user and a plain user, a session of each (the admin one
already past its expiry), and one testimonial of each status. -/

def adminUserDoc : Doc :=
  [("name", Val.vStr "Admin"), ("email", Val.vStr "admin@x.com"),
   ("password_hash", Val.vStr (pbkdf2_sha256_hash "pw")),
   ("is_admin", Val.vBool true), ("is_verified", Val.vBool true),
   ("created_at", Val.vInt 0), ("_id", Val.vStr "u1")]

def plainUserDoc : Doc :=
  [("name", Val.vStr "Pat"), ("email", Val.vStr "pat@x.com"),
   ("password_hash", Val.vStr (pbkdf2_sha256_hash "pw")),
   ("is_admin", Val.vBool false), ("is_verified", Val.vBool false),
   ("created_at", Val.vInt 0), ("_id", Val.vStr "u2")]

/-- A session for the admin user whose expiry (time 10) is already past
at the sample clock reading 50. -/
def expiredAdminSession : Doc :=
  [("token", Val.vStr "tokE"), ("user_id", Val.vStr "u1"),
   ("is_admin", Val.vBool true), ("is_verified", Val.vBool true),
   ("created_at", Val.vInt 0), ("expires_at", Val.vInt 10), ("_id", Val.vStr "s1")]

def plainSession : Doc :=
  [("token", Val.vStr "tokP"), ("user_id", Val.vStr "u2"),
   ("is_admin", Val.vBool false), ("is_verified", Val.vBool false),
   ("created_at", Val.vInt 0), ("expires_at", Val.vInt 1000), ("_id", Val.vStr "s2")]

def pendingTestimonialDoc : Doc :=
  [("name", Val.vStr "N"), ("quote", Val.vStr "q"),
   ("status", Val.vStr "pending"), ("company", Val.vStr "Acme"), ("_id", Val.vStr "t1")]

def approvedTestimonialDoc : Doc :=
  [("name", Val.vStr "M"), ("quote", Val.vStr "r"),
   ("status", Val.vStr "approved"), ("_id", Val.vStr "t2")]

def baseStore : Store :=
  { user := [adminUserDoc, plainUserDoc],
    session := [expiredAdminSession, plainSession],
    category := [], client := [], project := [],
    testimonial := [pendingTestimonialDoc, approvedTestimonialDoc],
    setting := [] }

/-! Helper lemmas about documents and the auth helpers. -/

theorem Doc.get?_erase_self (d : Doc) (k : String) :
    Doc.get? (Doc.erase d k) k = none := by
  induction d with
  | nil => rfl
  | cons kv rest ih =>
    by_cases h : kv.1 = k
    · simpa [Doc.erase, h] using ih
    · simpa [Doc.erase, Doc.get?, h] using ih

theorem Doc.get?_erase_ne (d : Doc) (k k2 : String) (h : k2 ≠ k) :
    Doc.get? (Doc.erase d k) k2 = Doc.get? d k2 := by
  induction d with
  | nil => rfl
  | cons kv rest ih =>
    by_cases hk : kv.1 = k
    · have hne : k ≠ k2 := fun hc => h hc.symm
      simp [Doc.erase, hk, Doc.get?, hne, ih]
    · by_cases hk2 : kv.1 = k2
      · simp [Doc.erase, hk, Doc.get?, hk2, h]
      · simp [Doc.erase, hk, Doc.get?, hk2, ih]

theorem Doc.get?_append (d1 d2 : Doc) (k : String) :
    Doc.get? (d1 ++ d2) k =
      match Doc.get? d1 k with
      | some v => some v
      | none => Doc.get? d2 k := by
  induction d1 with
  | nil => rfl
  | cons kv rest ih =>
    by_cases h : kv.1 = k
    · simp [Doc.get?, h]
    · simpa [Doc.get?, h] using ih

theorem serialize_get? (d : Doc) (k : String) (h1 : k ≠ "_id") (h2 : k ≠ "id") :
    Doc.get? (serialize d) k = Doc.get? d k := by
  unfold serialize
  cases hid : Doc.get? d "_id" with
  | none => rfl
  | some v =>
    rw [Doc.get?_append]
    rw [Doc.get?_erase_ne d "_id" k h1]
    cases hk : Doc.get? d k with
    | some w => rfl
    | none =>
      have hne : ("id" : String) ≠ k := fun hc => h2 hc.symm
      simp [Doc.get?, hne]

/-- Whatever the store, the token and the clock, `get_current_user` can
never surface the 401 Session-expired error: the raise happens inside the
swallowed `try`. -/
theorem get_current_user_never_expired (s : Store) (token? : Option String) (now : Int) :
    get_current_user s token? now ≠ Except.error ⟨401, "Session expired"⟩ := by
  unfold get_current_user
  repeat' split
  all_goals simp

/-- A successfully resolved caller document never carries the
`password_hash` field. -/
theorem get_current_user_no_hash (s : Store) (token? : Option String) (now : Int) (u : Doc)
    (h : get_current_user s token? now = Except.ok u) :
    Doc.get? u "password_hash" = none := by
  unfold get_current_user at h
  repeat' split at h
  all_goals first
    | exact Except.ok.inj h ▸ Doc.get?_erase_self _ _
    | exact absurd h (by simp)

/-- Resolution succeeds whenever a session row matches the token and the
user lookup is non-empty; the expiry of the session is never consulted. -/
theorem get_current_user_ok_of (s : Store) (tok : String) (now : Int)
    (sess0 u : Doc) (rest restU : List Doc)
    (htok : tok ≠ "")
    (h1 : (get_documents s Coll.session [("token", Val.vStr tok)]).take 1 = sess0 :: rest)
    (h2 : lookupSessionUser s sess0 = u :: restU) :
    get_current_user s (some tok) now = Except.ok ((serialize u).erase "password_hash") := by
  unfold get_current_user
  simp [htok, h1, h2]

/-- A request with no token fails caller resolution with 401. -/
theorem get_current_admin_no_token (s : Store) (now : Int) :
    get_current_admin s none now = Except.error ⟨401, "Missing token"⟩ := rfl

/-- Unfolding of the admin gate once the caller is resolved. -/
theorem get_current_admin_of_user (s : Store) (token? : Option String) (now : Int) (u : Doc)
    (h : get_current_user s token? now = Except.ok u) :
    get_current_admin s token? now =
      if valTruthy (u.get? "is_admin") && valTruthy (u.get? "is_verified") then Except.ok u
      else Except.error ⟨403, "Admin access required"⟩ := by
  unfold get_current_admin
  rw [h]

/-- The admin gate propagates caller-resolution failures unchanged. -/
theorem get_current_admin_of_err (s : Store) (token? : Option String) (now : Int) (e : HttpErr)
    (h : get_current_user s token? now = Except.error e) :
    get_current_admin s token? now = Except.error e := by
  unfold get_current_admin
  rw [h]

/-! Claim theorems. -/

/-- C1: for every stored session whose expires_at lies strictly in the
past, resolving the caller with that session's token does not fail with a
401 Session-expired error: the expiry comparison's exception path is
swallowed, so the expired session still authenticates successfully as
long as the referenced user exists. -/
theorem C1_expired_session_still_authenticates
    (s : Store) (tok : String) (now t : Int) (sess0 u : Doc) (rest restU : List Doc)
    (htok : tok ≠ "")
    (hsess : (get_documents s Coll.session [("token", Val.vStr tok)]).take 1 = sess0 :: rest)
    (hexp : Doc.get? sess0 "expires_at" = some (Val.vInt t))
    (hpast : t < now)
    (huser : lookupSessionUser s sess0 = u :: restU) :
    get_current_user s (some tok) now = Except.ok ((serialize u).erase "password_hash") ∧
    get_current_user s (some tok) now ≠ Except.error ⟨401, "Session expired"⟩ :=
  ⟨get_current_user_ok_of s tok now sess0 u rest restU htok hsess huser,
   get_current_user_never_expired s (some tok) now⟩

/-- Witness for C1: in the fixture store the admin session expired at
time 10, the clock reads 50, and its token still resolves the admin
user. -/
theorem C1_expired_session_still_authenticates_witness :
    get_current_user baseStore (some "tokE") 50 =
      Except.ok ((serialize adminUserDoc).erase "password_hash") ∧
    get_current_user baseStore (some "tokE") 50 ≠ Except.error ⟨401, "Session expired"⟩ :=
  C1_expired_session_still_authenticates baseStore "tokE" 50 10
    expiredAdminSession adminUserDoc [] []
    (by decide) (by decide) (by decide) (by decide) (by decide)

/-- C3: on the admin-gated create, update and delete endpoints, a request
with no bearer token fails with 401; a request resolving to a caller for
whom is_admin and is_verified are not both truthy fails with 403; and a
request resolving to a caller with both flags passes the gate and the
operation proceeds (the category endpoints stand for the uniform pattern,
whose gate is the shared `get_current_admin` dependency). -/
theorem C3_admin_gate :
    (∀ (s : Store) (now : Int) (payload : CategoryIn) (docId : String) (pl : Doc) (newId : String),
       get_current_admin s none now = Except.error ⟨401, "Missing token"⟩ ∧
       create_category s payload none now newId = (Except.error ⟨401, "Missing token"⟩, s) ∧
       update_category s docId pl none now = (Except.error ⟨401, "Missing token"⟩, s) ∧
       delete_category s docId none now = (Except.error ⟨401, "Missing token"⟩, s)) ∧
    (∀ (s : Store) (token? : Option String) (now : Int) (u : Doc)
       (payload : CategoryIn) (docId : String) (pl : Doc) (newId : String),
       get_current_user s token? now = Except.ok u →
       (valTruthy (u.get? "is_admin") && valTruthy (u.get? "is_verified")) = false →
       get_current_admin s token? now = Except.error ⟨403, "Admin access required"⟩ ∧
       create_category s payload token? now newId = (Except.error ⟨403, "Admin access required"⟩, s) ∧
       update_category s docId pl token? now = (Except.error ⟨403, "Admin access required"⟩, s) ∧
       delete_category s docId token? now = (Except.error ⟨403, "Admin access required"⟩, s)) ∧
    (∀ (s : Store) (token? : Option String) (now : Int) (u : Doc)
       (payload : CategoryIn) (docId : String) (pl : Doc) (newId : String),
       get_current_user s token? now = Except.ok u →
       (valTruthy (u.get? "is_admin") && valTruthy (u.get? "is_verified")) = true →
       get_current_admin s token? now = Except.ok u ∧
       (create_category s payload token? now newId).1 = Except.ok [("id", Val.vStr newId)] ∧
       ((update_category s docId pl token? now).1 = Except.ok [("ok", Val.vBool true)] ∨
        (update_category s docId pl token? now).1
          = Except.error ⟨404, "Category not found or not modified"⟩) ∧
       ((delete_category s docId token? now).1 = Except.ok [("ok", Val.vBool true)] ∨
        (delete_category s docId token? now).1 = Except.error ⟨404, "Category not found"⟩)) := by
  refine ⟨?_, ?_, ?_⟩
  · intro s now payload docId pl newId
    refine ⟨rfl, ?_, ?_, ?_⟩ <;>
      simp [create_category, update_category, delete_category, get_current_admin_no_token]
  · intro s token? now u payload docId pl newId hu hflags
    have hga := get_current_admin_of_user s token? now u hu
    rw [hflags] at hga
    simp only [if_false, Bool.false_eq_true] at hga
    refine ⟨hga, ?_, ?_, ?_⟩ <;>
      simp [create_category, update_category, delete_category, hga]
  · intro s token? now u payload docId pl newId hu hflags
    have hga := get_current_admin_of_user s token? now u hu
    rw [hflags] at hga
    simp only [if_true] at hga
    refine ⟨hga, ?_, ?_, ?_⟩
    · simp [create_category, hga, create_document]
    · simp only [update_category, hga]
      rcases hup : update_document s Coll.category docId pl with ⟨s2, b⟩
      cases b <;> simp
    · simp only [delete_category, hga]
      rcases hdel : delete_document s Coll.category docId with ⟨s2, b⟩
      cases b <;> simp

/-- Witness for C3: in the fixture store, no token yields 401, the plain
session's token yields 403, and the expired admin session's token passes
the gate and creates a category. -/
theorem C3_admin_gate_witness :
    get_current_admin baseStore none 50 = Except.error ⟨401, "Missing token"⟩ ∧
    create_category baseStore ⟨"k", "T", none⟩ none 50 "c9"
      = (Except.error ⟨401, "Missing token"⟩, baseStore) ∧
    get_current_admin baseStore (some "tokP") 50
      = Except.error ⟨403, "Admin access required"⟩ ∧
    delete_category baseStore "x" (some "tokP") 50
      = (Except.error ⟨403, "Admin access required"⟩, baseStore) ∧
    get_current_admin baseStore (some "tokE") 50
      = Except.ok ((serialize adminUserDoc).erase "password_hash") ∧
    (create_category baseStore ⟨"k", "T", none⟩ (some "tokE") 50 "c9").1
      = Except.ok [("id", Val.vStr "c9")] := by
  obtain ⟨h1, h2, h3⟩ := C3_admin_gate
  obtain ⟨ha, hb, _, _⟩ := h1 baseStore 50 ⟨"k", "T", none⟩ "x" [] "c9"
  obtain ⟨hc, _, _, hd⟩ :=
    h2 baseStore (some "tokP") 50 ((serialize plainUserDoc).erase "password_hash")
      ⟨"k", "T", none⟩ "x" [] "c9" (by rfl) (by decide)
  obtain ⟨he, hf, _, _⟩ :=
    h3 baseStore (some "tokE") 50 ((serialize adminUserDoc).erase "password_hash")
      ⟨"k", "T", none⟩ "x" [] "c9" (by rfl) (by decide)
  exact ⟨ha, hb, hc, hd, he, hf⟩

theorem docMatches_get? (filt d : Doc) (k : String) (v : Val)
    (hmem : (k, v) ∈ filt) (h : docMatches filt d = true) :
    Doc.get? d k = some v := by
  unfold docMatches at h
  rw [List.all_eq_true] at h
  exact of_decide_eq_true (h (k, v) hmem)

theorem erase_status_companyFilt (cn : Option String) :
    Doc.erase (("status", Val.vStr "approved") :: companyFilt cn) "status" = companyFilt cn := by
  cases cn with
  | none => rfl
  | some c =>
    by_cases hc : c = ""
    · simp [companyFilt, hc, Doc.erase]
    · simp [companyFilt, hc, Doc.erase]

/-- C2: without include_all, listed testimonials are all approved; with
include_all and a resolved admin caller the status restriction is dropped
and only the company filter remains; with include_all but a failing admin
resolution the listing is exactly the approved-only one, no error
surfaced. -/
theorem C2_testimonial_visibility :
    (∀ (s : Store) (cn tok : Option String) (now : Int) (d : Doc),
       d ∈ list_testimonials s cn false tok now →
       Doc.get? d "status" = some (Val.vStr "approved")) ∧
    (∀ (s : Store) (cn tok : Option String) (now : Int) (u : Doc),
       get_current_admin s tok now = Except.ok u → u ≠ [] →
       list_testimonials s cn true tok now
         = List.map serialize (get_documents s Coll.testimonial (companyFilt cn))) ∧
    (∀ (s : Store) (cn tok : Option String) (now : Int) (e : HttpErr),
       get_current_admin s tok now = Except.error e →
       list_testimonials s cn true tok now = list_testimonials s cn false tok now) := by
  refine ⟨?_, ?_, ?_⟩
  · intro s cn tok now d hd
    simp only [list_testimonials, if_false, Bool.false_eq_true] at hd
    rw [List.mem_map] at hd
    obtain ⟨d0, hd0, rfl⟩ := hd
    unfold get_documents at hd0
    rw [List.mem_filter] at hd0
    rw [serialize_get? d0 "status" (by decide) (by decide)]
    exact docMatches_get? _ d0 "status" (Val.vStr "approved") (List.mem_cons_self _ _) hd0.2
  · intro s cn tok now u hga hne
    have hue : u.isEmpty = false := by
      cases u with
      | nil => exact absurd rfl hne
      | cons a l => rfl
    simp only [list_testimonials, hga, hue, if_true, Bool.false_eq_true, if_false,
      List.singleton_append]
    rw [erase_status_companyFilt]
  · intro s cn tok now e hga
    simp [list_testimonials, hga]

/-- Witness for C2: in the fixture store the default listing contains the
approved row, the expired-admin token widens the listing, and the plain
token leaves it at the approved-only view. -/
theorem C2_testimonial_visibility_witness :
    Doc.get? (serialize approvedTestimonialDoc) "status" = some (Val.vStr "approved") ∧
    list_testimonials baseStore none true (some "tokE") 50
      = List.map serialize (get_documents baseStore Coll.testimonial (companyFilt none)) ∧
    list_testimonials baseStore none true (some "tokP") 50
      = list_testimonials baseStore none false (some "tokP") 50 := by
  obtain ⟨h1, h2, h3⟩ := C2_testimonial_visibility
  refine ⟨?_, ?_, ?_⟩
  · exact h1 baseStore none none 50 (serialize approvedTestimonialDoc) (by decide)
  · exact h2 baseStore none (some "tokE") 50
      ((serialize adminUserDoc).erase "password_hash") (by rfl) (by decide)
  · exact h3 baseStore none (some "tokP") 50 ⟨403, "Admin access required"⟩ (by rfl)

/-- C4: every public testimonial submission that reaches the handler
persists a document whose status is pending, and the response reports
that status together with the new id. -/
theorem C4_submit_forces_pending (s : Store) (payload : Doc) (now : Int) (newId : String)
    (p : PublicTestimonialIn) (h : validatePublicTestimonialIn payload = Except.ok p) :
    (submit_testimonial s payload now newId).1
      = Except.ok [("id", Val.vStr newId), ("status", Val.vStr "pending")] ∧
    ∃ d, (submit_testimonial s payload now newId).2.testimonial = s.testimonial ++ [d] ∧
      Doc.get? d "status" = some (Val.vStr "pending") := by
  simp only [submit_testimonial, h, create_document, Store.coll, Store.setColl]
  refine ⟨by trivial, ?_⟩
  refine ⟨_, rfl, ?_⟩
  simp [Doc.get?]

/-- Witness for C4: a concrete valid submission is stored as pending. -/
theorem C4_submit_forces_pending_witness :
    (submit_testimonial baseStore [("name", Val.vStr "A"), ("quote", Val.vStr "q")] 50 "t9").1
      = Except.ok [("id", Val.vStr "t9"), ("status", Val.vStr "pending")] ∧
    ∃ d, (submit_testimonial baseStore
            [("name", Val.vStr "A"), ("quote", Val.vStr "q")] 50 "t9").2.testimonial
        = baseStore.testimonial ++ [d] ∧
      Doc.get? d "status" = some (Val.vStr "pending") :=
  C4_submit_forces_pending baseStore [("name", Val.vStr "A"), ("quote", Val.vStr "q")]
    50 "t9" ⟨"A", none, none, none, "q"⟩ (by rfl)

/-- Counterexample to C5 as stated: the payload with rating "abc" is not
silently coerced to a stored rating of 5 — the `Optional[int]` field of
`PublicTestimonialIn` makes the framework reject the request with 422
before the handler's coercion runs, and the store is unchanged. -/
theorem C5_counterexample_abc_rejected :
    submit_testimonial baseStore
        [("name", Val.vStr "A"), ("quote", Val.vStr "q"), ("rating", Val.vStr "abc")] 50 "t9"
      = (Except.error ⟨422, "value is not a valid integer"⟩, baseStore) := rfl

/-- C5 amended: for every submission that passes validation the stored
rating is the clamp of the input into [0,5] (so 7 is stored as 5 and -3
as 0), while a non-numeric rating such as "abc" fails validation with 422
and stores nothing, rather than being coerced to 5. -/
theorem C5_rating_clamped :
    (∀ (s : Store) (payload : Doc) (now : Int) (newId : String) (p : PublicTestimonialIn),
       validatePublicTestimonialIn payload = Except.ok p →
       ∃ d, (submit_testimonial s payload now newId).2.testimonial = s.testimonial ++ [d] ∧
         Doc.get? d "rating" = some (Val.vInt (clampRating p.rating)) ∧
         0 ≤ clampRating p.rating ∧ clampRating p.rating ≤ 5) ∧
    clampRating (some 7) = 5 ∧
    clampRating (some (-3)) = 0 ∧
    (∀ (s : Store) (now : Int) (newId : String),
       submit_testimonial s
           [("name", Val.vStr "A"), ("quote", Val.vStr "q"), ("rating", Val.vStr "abc")]
           now newId
         = (Except.error ⟨422, "value is not a valid integer"⟩, s)) := by
  refine ⟨?_, by decide, by decide, ?_⟩
  · intro s payload now newId p h
    simp only [submit_testimonial, h, create_document, Store.coll, Store.setColl]
    refine ⟨_, rfl, ?_, ?_, ?_⟩
    · simp [Doc.get?]
    · exact le_max_left 0 _
    · exact max_le (by norm_num) (min_le_left 5 _)
  · intro s now newId
    rfl

/-- Witness for C5 amended: a submission with rating 7 stores rating 5. -/
theorem C5_rating_clamped_witness :
    ∃ d, (submit_testimonial baseStore
            [("name", Val.vStr "A"), ("quote", Val.vStr "q"), ("rating", Val.vInt 7)]
            50 "t9").2.testimonial
        = baseStore.testimonial ++ [d] ∧
      Doc.get? d "rating" = some (Val.vInt 5) ∧
      (0 : Int) ≤ 5 ∧ (5 : Int) ≤ 5 :=
  (C5_rating_clamped).1 baseStore
    [("name", Val.vStr "A"), ("quote", Val.vStr "q"), ("rating", Val.vInt 7)]
    50 "t9" ⟨"A", none, none, some 7, "q"⟩ (by rfl)

/-- C6: a signup whose email already matches a stored user fails with the
400 duplicate-email error and leaves the store (in particular the user
collection) unchanged. -/
theorem C6_duplicate_email_signup (s : Store) (u : SignupIn) (now : Int) (newId : String)
    (h : ∃ d ∈ s.user, Doc.get? d "email" = some (Val.vStr u.email)) :
    signup s u now newId = (Except.error ⟨400, "Email already registered"⟩, s) := by
  obtain ⟨d, hd, he⟩ := h
  have hmem : d ∈ get_documents s Coll.user [("email", Val.vStr u.email)] := by
    unfold get_documents
    rw [List.mem_filter]
    refine ⟨hd, ?_⟩
    unfold docMatches
    simp [he]
  have hne : get_documents s Coll.user [("email", Val.vStr u.email)] ≠ [] :=
    List.ne_nil_of_mem hmem
  unfold signup
  cases hl : get_documents s Coll.user [("email", Val.vStr u.email)] with
  | nil => exact absurd hl hne
  | cons a l => simp [hl]

/-- Witness for C6: signing up with the fixture admin's email fails and
changes nothing. -/
theorem C6_duplicate_email_signup_witness :
    signup baseStore ⟨"X", "admin@x.com", "p"⟩ 50 "u9"
      = (Except.error ⟨400, "Email already registered"⟩, baseStore) :=
  C6_duplicate_email_signup baseStore ⟨"X", "admin@x.com", "p"⟩ 50 "u9"
    ⟨adminUserDoc, by decide, by decide⟩

/-- C7: a login with a registered email but failing password verification
and a login with an unregistered email produce the same 401 response with
the same detail, and indeed identical endpoint results. -/
theorem C7_login_failures_identical (s : Store) (e1 pw1 e2 pw2 : String) (now : Int)
    (tk sid : String) (u : Doc) (rest : List Doc)
    (h1 : (get_documents s Coll.user [("email", Val.vStr e1)]).take 1 = u :: rest)
    (h2 : pbkdf2_sha256_verify pw1 (storedPasswordHash u) = false)
    (h3 : (get_documents s Coll.user [("email", Val.vStr e2)]).take 1 = []) :
    login s ⟨e1, pw1⟩ now tk sid = (Except.error ⟨401, "Invalid email or password"⟩, s) ∧
    login s ⟨e2, pw2⟩ now tk sid = (Except.error ⟨401, "Invalid email or password"⟩, s) ∧
    login s ⟨e1, pw1⟩ now tk sid = login s ⟨e2, pw2⟩ now tk sid := by
  have ha : login s ⟨e1, pw1⟩ now tk sid
      = (Except.error ⟨401, "Invalid email or password"⟩, s) := by
    unfold login
    rw [h1]
    simp [h2]
  have hb : login s ⟨e2, pw2⟩ now tk sid
      = (Except.error ⟨401, "Invalid email or password"⟩, s) := by
    unfold login
    rw [h3]
  exact ⟨ha, hb, ha.trans hb.symm⟩

/-- Witness for C7: wrong password for the fixture admin versus an
unknown email give the same result. -/
theorem C7_login_failures_identical_witness :
    login baseStore ⟨"admin@x.com", "wrong"⟩ 50 "tk" "s9"
      = (Except.error ⟨401, "Invalid email or password"⟩, baseStore) ∧
    login baseStore ⟨"ghost@x.com", "pw"⟩ 50 "tk" "s9"
      = (Except.error ⟨401, "Invalid email or password"⟩, baseStore) ∧
    login baseStore ⟨"admin@x.com", "wrong"⟩ 50 "tk" "s9"
      = login baseStore ⟨"ghost@x.com", "pw"⟩ 50 "tk" "s9" :=
  C7_login_failures_identical baseStore "admin@x.com" "wrong" "ghost@x.com" "pw" 50
    "tk" "s9" adminUserDoc [] (by decide) (by decide) (by decide)

/-- C8: the caller returned by GET /api/auth/me, the user object of a
successful login, and every element of GET /api/users carry no
password_hash field, whatever the stored documents contain. -/
theorem C8_password_hash_stripped :
    (∀ (s : Store) (tok : Option String) (now : Int) (u : Doc),
       me s tok now = Except.ok u → Doc.get? u "password_hash" = none) ∧
    (∀ (s : Store) (p : LoginIn) (now : Int) (tk sid : String) (out : LoginOut) (s2 : Store),
       login s p now tk sid = (Except.ok out, s2) →
       Doc.get? out.user "password_hash" = none) ∧
    (∀ (s : Store) (tok : Option String) (now : Int) (docs : List Doc),
       list_users s tok now = Except.ok docs →
       ∀ d ∈ docs, Doc.get? d "password_hash" = none) := by
  refine ⟨?_, ?_, ?_⟩
  · intro s tok now u h
    exact get_current_user_no_hash s tok now u h
  · intro s p now tk sid out s2 h
    unfold login at h
    repeat' split at h
    · exact absurd h (by simp)
    · exact absurd h (by simp)
    · rw [Prod.mk.injEq] at h
      obtain ⟨h1, -⟩ := h
      have h2 := Except.ok.inj h1
      rw [← h2]
      exact Doc.get?_erase_self _ _
  · intro s tok now docs h
    unfold list_users at h
    split at h
    · exact absurd h (by simp)
    · have h2 := Except.ok.inj h
      intro d hd
      rw [← h2] at hd
      rw [List.mem_map] at hd
      obtain ⟨d0, -, rfl⟩ := hd
      exact Doc.get?_erase_self _ _

/-- Witness for C8: concrete calls of the three endpoints against the
fixture store return hash-free user objects. -/
theorem C8_password_hash_stripped_witness :
    me baseStore (some "tokP") 50 = Except.ok ((serialize plainUserDoc).erase "password_hash") ∧
    Doc.get? ((serialize plainUserDoc).erase "password_hash") "password_hash" = none ∧
    Doc.get? (LoginOut.mk "tk" ((serialize adminUserDoc).erase "password_hash")).user
      "password_hash" = none ∧
    Doc.get? ((serialize adminUserDoc).erase "password_hash") "password_hash" = none := by
  obtain ⟨h1, h2, h3⟩ := C8_password_hash_stripped
  refine ⟨by rfl, ?_, ?_, ?_⟩
  · exact h1 baseStore (some "tokP") 50 ((serialize plainUserDoc).erase "password_hash") (by rfl)
  · exact h2 baseStore ⟨"admin@x.com", "pw"⟩ 50 "tk" "s9"
      ⟨"tk", (serialize adminUserDoc).erase "password_hash"⟩ _ (by rfl)
  · exact h3 baseStore (some "tokE") 50
      [(serialize adminUserDoc).erase "password_hash",
       (serialize plainUserDoc).erase "password_hash"] (by rfl)
      ((serialize adminUserDoc).erase "password_hash") (by decide)

/-- C9: the verify-admin update writes at most the two recognised fields,
each coerced to a boolean; all other payload keys are ignored; a payload
with neither key fails with 400 and writes nothing; and when a write does
happen it is exactly the allowed map. -/
theorem C9_verify_admin_frame :
    (∀ (payload : Doc) (k : String) (v : Val),
       (k, v) ∈ allowedFields payload →
       (k = "is_admin" ∨ k = "is_verified") ∧ ∃ b, v = Val.vBool b) ∧
    (∀ (payload : Doc) (k : String),
       k ≠ "is_admin" → k ≠ "is_verified" →
       Doc.get? (allowedFields payload) k = none) ∧
    (∀ (s : Store) (docId : String) (payload : Doc) (tok : Option String) (now : Int) (u : Doc),
       get_current_admin s tok now = Except.ok u →
       payload.hasKey "is_admin" = false → payload.hasKey "is_verified" = false →
       set_admin s docId payload tok now = (Except.error ⟨400, "No fields to update"⟩, s)) ∧
    (∀ (s : Store) (docId : String) (payload : Doc) (tok : Option String) (now : Int) (u : Doc),
       get_current_admin s tok now = Except.ok u →
       (allowedFields payload).isEmpty = false →
       set_admin s docId payload tok now
         = (match update_document s Coll.user docId (allowedFields payload) with
            | (s2, true) => (Except.ok [("ok", Val.vBool true)], s2)
            | (_, false) => (Except.error ⟨404, "User not found or not modified"⟩, s))) := by
  refine ⟨?_, ?_, ?_, ?_⟩
  · intro payload k v hmem
    unfold allowedFields at hmem
    rcases List.mem_append.mp hmem with hm | hm
    · by_cases ha : payload.hasKey "is_admin"
      · simp only [ha, if_true, List.mem_singleton, Prod.mk.injEq] at hm
        exact ⟨Or.inl hm.1, ⟨_, hm.2⟩⟩
      · simp [ha] at hm
    · by_cases hv : payload.hasKey "is_verified"
      · simp only [hv, if_true, List.mem_singleton, Prod.mk.injEq] at hm
        exact ⟨Or.inr hm.1, ⟨_, hm.2⟩⟩
      · simp [hv] at hm
  · intro payload k hk1 hk2
    unfold allowedFields
    rw [Doc.get?_append]
    by_cases ha : payload.hasKey "is_admin" <;>
      by_cases hv : payload.hasKey "is_verified" <;>
        simp [ha, hv, Doc.get?, Ne.symm hk1, Ne.symm hk2]
  · intro s docId payload tok now u hga ha hv
    unfold set_admin
    rw [hga]
    simp [allowedFields, ha, hv]
  · intro s docId payload tok now u hga hne
    unfold set_admin
    rw [hga]
    simp only [hne, Bool.false_eq_true, if_false]

/-- Witness for C9: a concrete verify-admin call against the fixture
store, with a payload mixing a recognised truthy field and a stray key,
and a payload with no recognised key. -/
theorem C9_verify_admin_frame_witness :
    allowedFields [("is_admin", Val.vInt 1), ("hack", Val.vStr "x")]
      = [("is_admin", Val.vBool true)] ∧
    Doc.get? (allowedFields [("is_admin", Val.vInt 1), ("hack", Val.vStr "x")]) "hack" = none ∧
    set_admin baseStore "u2" [("hack", Val.vStr "x")] (some "tokE") 50
      = (Except.error ⟨400, "No fields to update"⟩, baseStore) := by
  obtain ⟨h1, h2, h3, h4⟩ := C9_verify_admin_frame
  refine ⟨by decide, ?_, ?_⟩
  · exact h2 [("is_admin", Val.vInt 1), ("hack", Val.vStr "x")] "hack"
      (by decide) (by decide)
  · exact h3 baseStore "u2" [("hack", Val.vStr "x")] (some "tokE") 50
      ((serialize adminUserDoc).erase "password_hash") (by rfl) (by decide) (by decide)

/-- C10: asking for a settings key with no stored document returns the
bare fallback object with a 200 (the endpoint cannot fail) and performs
no write: the store is returned unchanged. -/
theorem C10_settings_fallback (s : Store) (k : String)
    (h : ∀ d ∈ s.setting, Doc.get? d "key" ≠ some (Val.vStr k)) :
    get_settings s k = ([("key", Val.vStr k)], s) := by
  have hf : get_documents s Coll.setting [("key", Val.vStr k)] = [] := by
    unfold get_documents
    rw [List.filter_eq_nil_iff]
    intro d hd
    unfold docMatches
    simp [h d hd]
  unfold get_settings
  rw [hf]
  rfl

/-- Witness for C10: the fixture store holds no settings at all, so the
lookup for "ui" falls back. -/
theorem C10_settings_fallback_witness :
    (∀ d ∈ baseStore.setting, Doc.get? d "key" ≠ some (Val.vStr "ui")) ∧
    get_settings baseStore "ui" = ([("key", Val.vStr "ui")], baseStore) := by
  have h : ∀ d ∈ baseStore.setting, Doc.get? d "key" ≠ some (Val.vStr "ui") := by
    intro d hd
    simp [baseStore] at hd
  exact ⟨h, C10_settings_fallback baseStore "ui" h⟩

end CMS
